import Mathlib

/-!
Verification of the client-side upload / analysis session of the Fogify.ai
video-mosaic editor.  The authoritative implementation is the API-connected
`FogifyEditor` class (the file embedded in `src/backend/README.md`); the
legacy simulated variant in `src/script.js` shares `validateFile`,
`resetUpload`, `formatDuration` and `formatFileSize` verbatim.

The embedding is shallow: the mutable fields of the `FogifyEditor` instance
(together with the DOM cells it writes through `showError` /
`updateProgress` / the video player `src` attribute) become an explicit
`EditorState` record, each method becomes a state-transformer, and the
outward-visible actions (issuing `POST /upload`, revoking an object URL,
closing the WebSocket) are recorded as an explicit effect list.  JavaScript
numbers are modelled as exact rationals; JavaScript strings as Lean strings,
with the `String.prototype` operations the code uses re-implemented over
character lists so that every definition evaluates inside the kernel.
-/

namespace Fogify

/-! ## JavaScript primitives used by the source -/

/-- Model of `Math.round` on an exact rational: `Math.round(x) = ⌊x + 1/2⌋`
(halves round toward positive infinity, exactly as in JavaScript). -/
def jsRound (q : ℚ) : ℤ := ⌊q + 1 / 2⌋

/-- Model of JavaScript truncation toward zero, as performed by the `%`
operator on numbers when computing `a - b * trunc(a / b)`. -/
def jsTrunc (q : ℚ) : ℤ := if q < 0 then -⌊-q⌋ else ⌊q⌋

/-- Model of the JavaScript `%` operator on numbers: remainder with the sign
of the dividend, `a % b = a - b * trunc(a / b)`. -/
def jsMod (a b : ℚ) : ℚ := a - b * (jsTrunc (a / b) : ℚ)

/-- Model of `String.prototype.split(sep)` for a one-character separator,
written over character lists: splitting never yields the empty list, and
splitting a string with no occurrence of the separator yields the whole
string as its single piece (so `"mp4".split('.')` is `["mp4"]`). -/
def splitOnChar (sep : Char) : List Char → List (List Char)
  | [] => [[]]
  | ch :: rest =>
    match splitOnChar sep rest with
    | [] => [[ch]]
    | hd :: tl => if ch = sep then [] :: hd :: tl else (ch :: hd) :: tl

/-- Model of `String.prototype.startsWith(pat)` over character lists. -/
def charsStartWith : List Char → List Char → Bool
  | _, [] => true
  | [], _ :: _ => false
  | c :: cs, p :: ps => c = p && charsStartWith cs ps

/-- Model of `String.prototype.startsWith(pat)`. -/
def strStartsWith (s pat : String) : Bool := charsStartWith s.data pat.data

/-- Model of `String.prototype.padStart(n, c)`: left-pad to length `n`. -/
def padStart (n : Nat) (c : Char) (s : String) : String :=
  String.mk (List.replicate (n - s.data.length) c) ++ s

/-- Model of the JavaScript truthiness idiom `detail || fallback` applied to
an optional string field of a parsed JSON body: an absent field and the
empty string are both falsy, so both select the fallback. -/
def jsOrElse (detail : Option String) (fallback : String) : String :=
  match detail with
  | some d => if d = "" then fallback else d
  | none => fallback

/-! ## Data model -/

/-- A user-chosen file as the DOM hands it to `handleFileSelect`: the fields
of the Web `File` object the code reads (`name`, `size` in bytes, and the
declared MIME type `type`). -/
structure JsFile where
  name : String
  size : Nat
  type : String
deriving DecidableEq, Repr

/-- The metadata object of a 2xx `POST /upload` response body. -/
structure VideoMetadata where
  duration : ℚ
  width : Nat
  height : Nat
  frame_count : Nat
  fps : ℚ
  file_size : Nat
deriving DecidableEq, Repr

/-- The state of the `this.websocket` field: `noSocket` is the JavaScript
`null`; a constructed socket is either still open or has been closed by
`close()` (a closed socket is non-null, so `if (this.websocket)` still
takes the branch, but the browser delivers no further `onmessage` events
for it). -/
inductive WebSocketState
  | noSocket
  | sockOpen
  | sockClosed
deriving DecidableEq, Repr

/-- One parsed JSON message of the `/ws/{task_id}` Progress Channel,
dispatched on its `type` tag by `websocket.onmessage`. -/
inductive ChannelMsg
  | progress (progress : ℚ) (message : String)
  | complete (detection_count : Nat) (total_frames : Nat)
  | error (message : String)
deriving DecidableEq, Repr

/-- The session state of one `FogifyEditor` instance: its mutable fields
(`currentFile`, `currentTaskId`, `websocket`, `fileInput.value`) together
with the DOM cells its methods write (the `%` width of the progress bar,
the progress text, progress visibility, the error box, and the video
player's object URL, where `videoSrc = none` models the cleared `src`).
The pure show/hide toggling of `uploadSection` / `videoSection` and the
`innerHTML` renderings are presentation only and carry no session data. -/
structure EditorState where
  currentFile : Option JsFile
  currentTaskId : Option String
  websocket : WebSocketState
  videoSrc : Option String
  fileInputValue : String
  progressPercent : ℤ
  progressText : String
  progressVisible : Bool
  errorMessage : Option String
deriving DecidableEq, Repr

/-- Outward-visible actions of the editor, recorded alongside each state
transition: network requests issued, object URLs revoked, sockets closed. -/
inductive Effect
  | uploadRequest
  | analyzeRequest
  | revokeObjectURL (url : String)
  | closeWebSocket
deriving DecidableEq, Repr

/-- The state of a freshly constructed `FogifyEditor`. -/
def initialState : EditorState :=
  { currentFile := none
    currentTaskId := none
    websocket := WebSocketState.noSocket
    videoSrc := none
    fileInputValue := ""
    progressPercent := 0
    progressText := ""
    progressVisible := false
    errorMessage := none }

/-! ## The editor's methods -/

/-- Method `showError(message)`. -/
def showError (s : EditorState) (message : String) : EditorState :=
  { s with errorMessage := some message }

/-- Method `hideError()`. -/
def hideError (s : EditorState) : EditorState :=
  { s with errorMessage := none }

/-- Method `showProgress()`. -/
def showProgress (s : EditorState) : EditorState :=
  { s with progressVisible := true }

/-- Method `hideProgress()`. -/
def hideProgress (s : EditorState) : EditorState :=
  { s with progressVisible := false }

/-- Method `updateProgress(percent, message)`: rounds the raw percent with
`Math.round` — no clamping — writes it as the bar width, and shows
`message` as the text, falling back to the rounded percent when `message`
is the (falsy) empty string. -/
def updateProgress (s : EditorState) (percent : ℚ) (message : String) : EditorState :=
  let rounded := jsRound percent
  { s with
    progressPercent := rounded
    progressText := if message = "" then toString rounded ++ "%" else message }

/-- Field `this.supportedFormats`. -/
def supportedFormats : List String := ["mp4", "mov", "avi", "mkv", "webm"]

/-- Field `this.maxFileSize` (500 MiB). -/
def maxFileSize : Nat := 500 * 1024 * 1024

/-- The expression `file.name.split('.').pop().toLowerCase()` from
`validateFile`: the last dot-separated piece of the name, lowercased.  For
a name with no dot this is the whole name. -/
def fileExtension (name : String) : String :=
  String.mk (((splitOnChar '.' name.data).getLastD []).map Char.toLower)

/-- The four reasons `validateFile` can fail, in the order the checks are
written in the source. -/
inductive ValidationError
  | noFile
  | tooLarge
  | unsupportedFormat
  | notVideo
deriving DecidableEq, Repr

/-- The user-facing message `validateFile` shows for each failed rule
(the template literals evaluated with `this.maxFileSize` = 500 MiB and
`this.supportedFormats` as above). -/
def validationErrorMessage : ValidationError → String
  | ValidationError.noFile => "파일이 선택되지 않았습니다."
  | ValidationError.tooLarge => "파일 크기가 너무 큽니다. 최대 500MB까지 지원됩니다."
  | ValidationError.unsupportedFormat =>
      "지원되지 않는 파일 형식입니다. 지원 형식: MP4, MOV, AVI, MKV, WEBM"
  | ValidationError.notVideo => "비디오 파일만 업로드할 수 있습니다."

/-- Method `validateFile(file)`: the four checks in source order — non-null,
size, extension, MIME prefix — returning the first failed rule, or `none`
when the file passes.  The source returns `false` after calling
`showError` with the matching message; the caller composes the two. -/
def validateFile (file : Option JsFile) : Option ValidationError :=
  match file with
  | none => some ValidationError.noFile
  | some f =>
    if maxFileSize < f.size then some ValidationError.tooLarge
    else if (supportedFormats.contains (fileExtension f.name)) = false then
      some ValidationError.unsupportedFormat
    else if (strStartsWith f.type "video/") = false then some ValidationError.notVideo
    else none

/-- Method `handleFileSelect(file)` up to its first suspension point: on a
failed validation it shows the error and returns (no request, no other
state change); on success it hides the error box, stores the file in
`currentFile`, and runs the synchronous prefix of `uploadFileToServer`
(`showProgress`, `updateProgress(0, '파일 업로드 중...')`, issue the
`POST /upload` request).  It does not touch `currentTaskId` or the
websocket. -/
def handleFileSelect (s : EditorState) (file : Option JsFile) :
    EditorState × List Effect :=
  match validateFile file with
  | some e => (showError s (validationErrorMessage e), [])
  | none =>
    match file with
    | none => (s, [])
    | some f =>
      let s1 := hideError s
      let s2 := { s1 with currentFile := some f }
      let s3 := showProgress s2
      let s4 := updateProgress s3 0 "파일 업로드 중..."
      (s4, [Effect.uploadRequest])

/-- The outcome of the awaited `fetch` of `uploadFileToServer`: a 2xx
response with parsed body, a non-2xx response whose JSON body may carry a
`detail` field, or a rejected promise (network failure) with its error
message. -/
inductive UploadOutcome
  | success (task_id : String) (filename : String) (metadata : VideoMetadata)
  | httpError (detail : Option String)
  | networkFailure (message : String)
deriving DecidableEq, Repr

/-- The generic fallback of `errorData.detail || '파일 업로드에 실패했습니다.'`. -/
def genericUploadFailMsg : String := "파일 업로드에 실패했습니다."

/-- The continuation of `uploadFileToServer(file)` after its `fetch`
resolves, applied to whatever session state holds at that moment.  On
success it stores `result.task_id`, renders the video info (DOM only),
shows 100 % progress, and after the timeout hides the progress bar and
points the video player at a fresh object URL for `file` (the URL string is
passed in as `objectUrl`).  On a non-2xx status the thrown
`Error(errorData.detail || generic)` is caught: the message is shown and
the progress bar hidden.  A network failure is caught identically.  No
branch issues another request, so a failed upload is never retried. -/
def applyUploadResponse (s : EditorState) (_file : JsFile) (objectUrl : String)
    (outcome : UploadOutcome) : EditorState × List Effect :=
  match outcome with
  | UploadOutcome.success task_id _filename _metadata =>
    let s1 := { s with currentTaskId := some task_id }
    let s2 := updateProgress s1 100 "업로드 완료! AI 분석을 시작합니다..."
    let s3 := hideProgress s2
    let s4 := { s3 with videoSrc := some objectUrl }
    (s4, [])
  | UploadOutcome.httpError detail =>
    let s1 := showError s (jsOrElse detail genericUploadFailMsg)
    (hideProgress s1, [])
  | UploadOutcome.networkFailure message =>
    (hideProgress (showError s message), [])

/-- Method `startAnalysis()` up to its suspension point: with no live
`currentTaskId` it shows the no-task error; otherwise `connectWebSocket()`
opens a fresh socket for the current task and the `POST /analyze/{task_id}`
request is issued. -/
def startAnalysis (s : EditorState) : EditorState × List Effect :=
  match s.currentTaskId with
  | none => (showError s "분석할 작업이 없습니다. 먼저 파일을 업로드하세요.", [])
  | some _ => ({ s with websocket := WebSocketState.sockOpen }, [Effect.analyzeRequest])

/-- Method `onAnalysisComplete(result)`: hides the progress bar, renders the
analysis result (DOM only), and closes the websocket when one is present
(`if (this.websocket) this.websocket.close()` — the field is not nulled). -/
def onAnalysisComplete (s : EditorState) : EditorState × List Effect :=
  let s1 := hideProgress s
  if s1.websocket = WebSocketState.noSocket then (s1, [])
  else ({ s1 with websocket := WebSocketState.sockClosed }, [Effect.closeWebSocket])

/-- The `websocket.onmessage` dispatch: `progress` feeds raw percent and
message to `updateProgress`; `complete` runs `onAnalysisComplete`; `error`
shows the carried message and hides the progress bar — note that the
`error` arm does not close the socket. -/
def websocketOnMessage (s : EditorState) (m : ChannelMsg) : EditorState × List Effect :=
  match m with
  | ChannelMsg.progress p message => (updateProgress s p message, [])
  | ChannelMsg.complete _ _ => onAnalysisComplete s
  | ChannelMsg.error message => (hideProgress (showError s message), [])

/-- Delivery of one Progress Channel message: the browser fires `onmessage`
only while the socket is open, so a message arriving at a closed (or absent)
socket is dropped. -/
def deliverChannelMsg (s : EditorState) (m : ChannelMsg) : EditorState × List Effect :=
  if s.websocket = WebSocketState.sockOpen then websocketOnMessage s m else (s, [])

/-- State reached after delivering one channel message. -/
def deliverState (s : EditorState) (m : ChannelMsg) : EditorState :=
  (deliverChannelMsg s m).1

/-- State reached after delivering a whole sequence of channel messages in
arrival order. -/
def runChannelMsgs (s : EditorState) (msgs : List ChannelMsg) : EditorState :=
  msgs.foldl deliverState s

/-- Whether a channel message is terminal (`complete` or `error`). -/
def isTerminalMsg : ChannelMsg → Bool
  | ChannelMsg.progress _ _ => false
  | ChannelMsg.complete _ _ => true
  | ChannelMsg.error _ => true

/-- Whether a channel message is a `complete` event. -/
def isCompleteMsg : ChannelMsg → Bool
  | ChannelMsg.complete _ _ => true
  | _ => false

/-- How many terminal (`complete` or `error`) events of the sequence are
actually handled, i.e. arrive while the socket is open. -/
def countTerminalTransitions : EditorState → List ChannelMsg → Nat
  | _, [] => 0
  | s, m :: rest =>
    (if s.websocket = WebSocketState.sockOpen ∧ isTerminalMsg m = true then 1 else 0)
      + countTerminalTransitions (deliverState s m) rest

/-- How many `complete` events of the sequence are actually handled. -/
def countCompleteTransitions : EditorState → List ChannelMsg → Nat
  | _, [] => 0
  | s, m :: rest =>
    (if s.websocket = WebSocketState.sockOpen ∧ isCompleteMsg m = true then 1 else 0)
      + countCompleteTransitions (deliverState s m) rest

/-- The object URLs revoked in a list of effects. -/
def revokedUrls (effs : List Effect) : List String :=
  effs.filterMap fun e =>
    match e with
    | Effect.revokeObjectURL url => some url
    | _ => none

/-- Method `resetUpload()`: revoke the object URL if the player holds one
and clear the `src`; close and null the websocket if one is present; null
`currentFile`, `currentTaskId` and the file input; hide the error box and
the progress bar. -/
def resetUpload (s : EditorState) : EditorState × List Effect :=
  let p1 : EditorState × List Effect :=
    match s.videoSrc with
    | some url => ({ s with videoSrc := none }, [Effect.revokeObjectURL url])
    | none => (s, [])
  let p2 : EditorState × List Effect :=
    if p1.1.websocket = WebSocketState.noSocket then (p1.1, [])
    else ({ p1.1 with websocket := WebSocketState.noSocket }, [Effect.closeWebSocket])
  let s3 := { p2.1 with
    currentFile := none
    currentTaskId := none
    fileInputValue := "" }
  (hideProgress (hideError s3), p1.2 ++ p2.2)

/-! ## The display-formatting utilities -/

/-- Method `formatDuration(seconds)`: `h:mm:ss` above an hour, `m:ss`
below, each piece obtained with `Math.floor` and the JavaScript `%`.  The
`isNaN` guard of the source is unreachable for exact rational inputs. -/
def formatDuration (seconds : ℚ) : String :=
  let hours := ⌊seconds / 3600⌋
  let minutes := ⌊jsMod seconds 3600 / 60⌋
  let secs := ⌊jsMod seconds 60⌋
  if 0 < hours then
    toString hours ++ ":" ++ padStart 2 '0' (toString minutes) ++ ":"
      ++ padStart 2 '0' (toString secs)
  else
    toString minutes ++ ":" ++ padStart 2 '0' (toString secs)

/-- The unit suffixes of `formatFileSize`; index 4 and above renders the
JavaScript `undefined`. -/
def sizeUnits : List String := ["Bytes", "KB", "MB", "GB"]

/-- Rendering of `parseFloat(q.toFixed(2))` for a nonnegative rational:
round to two decimals (`toFixed` rounds ties up for positive numbers) and
print without trailing fractional zeros, as number-to-string does. -/
def renderFixed2 (q : ℚ) : String :=
  let n := (⌊q * 100 + 1 / 2⌋).toNat
  let ip := n / 100
  let fr := n % 100
  if fr = 0 then toString ip
  else if fr % 10 = 0 then toString ip ++ "." ++ toString (fr / 10)
  else toString ip ++ "." ++ toString (fr / 10) ++ toString (fr % 10)

/-- Method `formatFileSize(bytes)`: zero is special-cased; otherwise the
unit index is `Math.floor(Math.log(bytes) / Math.log(1024))`, which for a
positive integer is the integer logarithm `Nat.log 1024 bytes`, and the
scaled value is printed via `toFixed(2)` and `parseFloat`. -/
def formatFileSize (bytes : Nat) : String :=
  if bytes = 0 then "0 Bytes"
  else
    let i := Nat.log 1024 bytes
    let q : ℚ := (bytes : ℚ) / (1024 : ℚ) ^ i
    renderFixed2 q ++ " " ++ sizeUnits.getD i "undefined"

/-! ## Concrete sample data used by witnesses and counterexamples -/

/-- A file passing all four validation rules. -/
def goodFile : JsFile := { name := "movie.mp4", size := 1000, type := "video/mp4" }

/-- A file over the 500 MiB limit. -/
def bigFile : JsFile := { name := "movie.mp4", size := 600 * 1024 * 1024, type := "video/mp4" }

/-- A file with an unsupported extension. -/
def badExtFile : JsFile := { name := "movie.txt", size := 1000, type := "video/mp4" }

/-- A file with no extension at all whose bare name coincides with a format
name. -/
def noExtFile : JsFile := { name := "mp4", size := 1000, type := "video/mp4" }

/-- A session mid-analysis: a task is live and its Progress Channel open. -/
def sampleOpenState : EditorState :=
  { currentFile := some goodFile
    currentTaskId := some "abc123"
    websocket := WebSocketState.sockOpen
    videoSrc := some "blob:demo"
    fileInputValue := "movie.mp4"
    progressPercent := 40
    progressText := "analyzing"
    progressVisible := true
    errorMessage := none }

/-- The metadata of the spec's worked example response. -/
def demoMetadata : VideoMetadata :=
  { duration := 125
    width := 1920
    height := 1080
    frame_count := 3000
    fps := 24
    file_size := 10485760 }

/-! ## Helper lemmas -/

/-- On an integer input, `Math.round` is the identity. -/
lemma jsRound_intCast (n : ℤ) : jsRound (n : ℚ) = n := by
  rw [jsRound, Int.floor_eq_iff]
  constructor
  · linarith
  · linarith

/-- Rounding the out-of-range progress value `-5` yields `-5`. -/
lemma jsRound_neg_five : jsRound (-5) = -5 := by
  simpa using jsRound_intCast (-5)

/-- Rounding the out-of-range progress value `143` yields `143`. -/
lemma jsRound_one_four_three : jsRound 143 = 143 := by
  simpa using jsRound_intCast 143

/-- A message delivered at a socket that is not open leaves the state as it
is (the browser fires no `onmessage` for it). -/
lemma deliverState_not_open (s : EditorState) (m : ChannelMsg)
    (h : s.websocket ≠ WebSocketState.sockOpen) : deliverState s m = s := by
  simp [deliverState, deliverChannelMsg, h]

/-- Once the socket is not open, no later `complete` event of the sequence
is ever handled. -/
lemma countComplete_not_open (s : EditorState) (msgs : List ChannelMsg)
    (h : s.websocket ≠ WebSocketState.sockOpen) :
    countCompleteTransitions s msgs = 0 := by
  induction msgs with
  | nil => rfl
  | cons m rest ih =>
    rw [countCompleteTransitions, deliverState_not_open s m h]
    simp [h, ih]

/-- A `complete` event handled at an open socket closes it. -/
lemma deliver_complete_closes (s : EditorState) (dc tf : Nat)
    (h : s.websocket = WebSocketState.sockOpen) :
    (deliverState s (ChannelMsg.complete dc tf)).websocket = WebSocketState.sockClosed := by
  simp [deliverState, deliverChannelMsg, h, websocketOnMessage, onAnalysisComplete,
    hideProgress]

/-- A `progress` event leaves the socket state unchanged. -/
lemma deliver_progress_keeps_socket (s : EditorState) (p : ℚ) (msg : String) :
    (deliverState s (ChannelMsg.progress p msg)).websocket = s.websocket := by
  by_cases h : s.websocket = WebSocketState.sockOpen
  · simp [deliverState, deliverChannelMsg, h, websocketOnMessage, updateProgress]
  · rw [deliverState_not_open s _ h]

/-- An `error` event leaves the socket state unchanged: the `error` arm of
`websocket.onmessage` never calls `close()`. -/
lemma deliver_error_keeps_socket (s : EditorState) (msg : String) :
    (deliverState s (ChannelMsg.error msg)).websocket = s.websocket := by
  by_cases h : s.websocket = WebSocketState.sockOpen
  · simp [deliverState, deliverChannelMsg, h, websocketOnMessage, hideProgress, showError]
  · rw [deliverState_not_open s _ h]

/-- At most one `complete` event is ever handled per message sequence. -/
lemma countComplete_le_one (s : EditorState) (msgs : List ChannelMsg) :
    countCompleteTransitions s msgs ≤ 1 := by
  induction msgs generalizing s with
  | nil => simp [countCompleteTransitions]
  | cons m rest ih =>
    by_cases h : s.websocket = WebSocketState.sockOpen
    · cases m with
      | progress p msg =>
        rw [countCompleteTransitions]
        simp only [isCompleteMsg, h]
        simpa using ih (deliverState s (ChannelMsg.progress p msg))
      | complete dc tf =>
        rw [countCompleteTransitions]
        have hz : countCompleteTransitions (deliverState s (ChannelMsg.complete dc tf)) rest = 0 := by
          apply countComplete_not_open
          rw [deliver_complete_closes s dc tf h]
          intro hc
          cases hc
        simp [h, isCompleteMsg, hz]
      | error msg =>
        rw [countCompleteTransitions]
        simp only [isCompleteMsg, h]
        simpa using ih (deliverState s (ChannelMsg.error msg))
    · rw [countComplete_not_open s _ h]
      omega

/-! ## Claim theorems -/

/-- C1 (counterexample): a `progress` event carrying `-5`, handled at an
open channel, displays `-5 %` — `updateProgress` applies `Math.round` to
the raw value with no clamping, so the claim's required display of `0 %`
does not happen. -/
theorem progress_no_clamp_counterexample :
    (deliverState sampleOpenState (ChannelMsg.progress (-5) "p")).progressPercent = -5
      ∧ (-5 : ℤ) ≠ 0 := by
  refine ⟨?_, by decide⟩
  show (updateProgress sampleOpenState (-5) "p").progressPercent = -5
  simp [updateProgress, jsRound_neg_five]

/-- C1 (amended): a `progress` event handled at an open channel displays
`Math.round` of the raw value — unclamped, so `-5` displays `-5 %` and
`143` displays `143 %` — and leaves `currentFile`, `currentTaskId`, the
socket and the video URL unchanged. -/
theorem progress_event_rounds_unclamped (s : EditorState) (p : ℚ) (msg : String) :
    (deliverState { s with websocket := WebSocketState.sockOpen }
        (ChannelMsg.progress p msg)).progressPercent = jsRound p
  ∧ (deliverState { s with websocket := WebSocketState.sockOpen }
        (ChannelMsg.progress p msg)).currentFile = s.currentFile
  ∧ (deliverState { s with websocket := WebSocketState.sockOpen }
        (ChannelMsg.progress p msg)).currentTaskId = s.currentTaskId
  ∧ (deliverState { s with websocket := WebSocketState.sockOpen }
        (ChannelMsg.progress p msg)).websocket = WebSocketState.sockOpen
  ∧ (deliverState { s with websocket := WebSocketState.sockOpen }
        (ChannelMsg.progress p msg)).videoSrc = s.videoSrc
  ∧ jsRound (-5) = -5 ∧ jsRound 143 = 143 :=
  ⟨rfl, rfl, rfl, rfl, rfl, jsRound_neg_five, jsRound_one_four_three⟩

/-- C2 (counterexample): from a session with an open channel, the sequence
`error` then `complete` produces two handled terminal events — the `error`
arm does not close the socket, so the following `complete` is processed. -/
theorem two_terminal_transitions_counterexample :
    countTerminalTransitions sampleOpenState
        [ChannelMsg.error "분석 실패", ChannelMsg.complete 3 3000] = 2
      ∧ ¬ (2 ≤ 1) := ⟨by decide, by decide⟩

/-- C2 (amended): at most one `complete` event is handled per message
sequence; a handled `complete` closes the channel and a message arriving
at the closed channel is ignored; but a handled `error` leaves the channel
open, so a `complete` arriving after an `error` is still handled. -/
theorem terminal_events_behavior (s : EditorState) (msgs : List ChannelMsg)
    (dc tf : Nat) (emsg : String) (m : ChannelMsg) :
    countCompleteTransitions s msgs ≤ 1
  ∧ (deliverState { s with websocket := WebSocketState.sockOpen }
        (ChannelMsg.complete dc tf)).websocket = WebSocketState.sockClosed
  ∧ deliverState { s with websocket := WebSocketState.sockClosed } m
      = { s with websocket := WebSocketState.sockClosed }
  ∧ (deliverState { s with websocket := WebSocketState.sockOpen }
        (ChannelMsg.error emsg)).websocket = WebSocketState.sockOpen :=
  ⟨countComplete_le_one s msgs, rfl, rfl, rfl⟩

/-- C3: `validateFile` applies its four rules in the fixed source order —
non-null, size at most 500 MiB, extension in the supported set, MIME type
starting with `video/` — stopping at the first violated rule; the four
user-facing messages are pairwise distinct, so the message identifies the
rule; and an oversized file makes `handleFileSelect` show the size message
and return with an empty effect list — no `POST /upload` is issued. -/
theorem validateFile_rule_order :
    validateFile none = some ValidationError.noFile
  ∧ (∀ f : JsFile, maxFileSize < f.size →
      validateFile (some f) = some ValidationError.tooLarge)
  ∧ (∀ f : JsFile, f.size ≤ maxFileSize →
      supportedFormats.contains (fileExtension f.name) = false →
      validateFile (some f) = some ValidationError.unsupportedFormat)
  ∧ (∀ f : JsFile, f.size ≤ maxFileSize →
      supportedFormats.contains (fileExtension f.name) = true →
      strStartsWith f.type "video/" = false →
      validateFile (some f) = some ValidationError.notVideo)
  ∧ (∀ f : JsFile, f.size ≤ maxFileSize →
      supportedFormats.contains (fileExtension f.name) = true →
      strStartsWith f.type "video/" = true →
      validateFile (some f) = none)
  ∧ List.Pairwise (fun a b => a ≠ b)
      [validationErrorMessage ValidationError.noFile,
       validationErrorMessage ValidationError.tooLarge,
       validationErrorMessage ValidationError.unsupportedFormat,
       validationErrorMessage ValidationError.notVideo]
  ∧ (∀ (s : EditorState) (f : JsFile), maxFileSize < f.size →
      handleFileSelect s (some f)
        = (showError s (validationErrorMessage ValidationError.tooLarge), [])) := by
  refine ⟨rfl, ?_, ?_, ?_, ?_, by decide, ?_⟩
  · intro f h
    rw [validateFile, if_pos h]
  · intro f h1 h2
    rw [validateFile, if_neg (by omega), if_pos h2]
  · intro f h1 h2 h3
    rw [validateFile, if_neg (by omega), if_neg (by rw [h2]; simp), if_pos h3]
  · intro f h1 h2 h3
    rw [validateFile, if_neg (by omega), if_neg (by rw [h2]; simp),
      if_neg (by rw [h3]; simp)]
  · intro s f h
    have hv : validateFile (some f) = some ValidationError.tooLarge := by
      rw [validateFile, if_pos h]
    rw [handleFileSelect.eq_def, hv]

/-- C3 (witness): the order theorem instantiated at a 600 MiB file and at a
file passing all rules. -/
theorem validateFile_rule_order_witness :
    validateFile (some bigFile) = some ValidationError.tooLarge
  ∧ validateFile (some goodFile) = none
  ∧ handleFileSelect sampleOpenState (some bigFile)
      = (showError sampleOpenState (validationErrorMessage ValidationError.tooLarge), []) :=
  ⟨validateFile_rule_order.2.1 bigFile (by decide),
   validateFile_rule_order.2.2.2.2.1 goodFile (by decide) (by decide) (by decide),
   validateFile_rule_order.2.2.2.2.2.2 sampleOpenState bigFile (by decide)⟩

/-- C4 (counterexample): the file named `mp4` — no dot in its name, hence
no extension — passes validation entirely and triggers the upload request:
`split('.').pop()` of a dotless name is the whole name, which is in the
supported set. -/
theorem extensionless_file_counterexample :
    (splitOnChar '.' noExtFile.name.data).length = 1
  ∧ validateFile (some noExtFile) = none
  ∧ (handleFileSelect initialState (some noExtFile)).2 = [Effect.uploadRequest] :=
  ⟨by decide, by decide, by decide⟩

/-- C4 (amended): every file whose computed extension — the last
dot-separated piece of its name, lowercased — is outside the supported set
fails validation; a dotless file is rejected unless its entire lowercased
name happens to be one of the format names. -/
theorem bad_extension_rejected (f : JsFile)
    (h : supportedFormats.contains (fileExtension f.name) = false) :
    validateFile (some f) ≠ none := by
  rw [validateFile]
  by_cases hs : maxFileSize < f.size
  · rw [if_pos hs]
    simp
  · rw [if_neg hs, if_pos h]
    simp

/-- C4 (witness): the amended theorem at a `.txt` file. -/
theorem bad_extension_rejected_witness : validateFile (some badExtFile) ≠ none :=
  bad_extension_rejected badExtFile (by decide)

/-- C5 (counterexample): a non-2xx response whose JSON body carries
`detail: ""` — the field present but empty — is reported with the generic
fallback message, not with the server-supplied detail, because
`errorData.detail || generic` treats the empty string as falsy. -/
theorem empty_detail_counterexample :
    (applyUploadResponse sampleOpenState goodFile "blob:x"
        (UploadOutcome.httpError (some ""))).1.errorMessage = some genericUploadFailMsg
  ∧ genericUploadFailMsg ≠ "" := ⟨by decide, by decide⟩

/-- C5 (amended): on a non-2xx upload response the shown message is the
server-supplied `detail` when it is present and non-empty, and the fixed
generic message when the field is absent or empty; a network failure shows
its own message; and neither failure path issues any further effect — in
particular no retry request. -/
theorem upload_rejected_message (s : EditorState) (f : JsFile) (url : String)
    (detail : Option String) (nmsg : String) :
    (applyUploadResponse s f url (UploadOutcome.httpError detail)).1.errorMessage
      = some (jsOrElse detail genericUploadFailMsg)
  ∧ (applyUploadResponse s f url (UploadOutcome.httpError detail)).2 = []
  ∧ (detail = none → jsOrElse detail genericUploadFailMsg = genericUploadFailMsg)
  ∧ (∀ d : String, detail = some d → d ≠ "" →
      jsOrElse detail genericUploadFailMsg = d)
  ∧ (applyUploadResponse s f url (UploadOutcome.networkFailure nmsg)).1.errorMessage
      = some nmsg
  ∧ (applyUploadResponse s f url (UploadOutcome.networkFailure nmsg)).2 = [] := by
  refine ⟨rfl, rfl, ?_, ?_, rfl, rfl⟩
  · intro h
    rw [h]
    rfl
  · intro d hd hne
    rw [hd]
    simp [jsOrElse, hne]

/-- C5 (witness): the message theorem instantiated at a response carrying a
non-empty detail string. -/
theorem upload_rejected_message_witness :
    jsOrElse (some "서버 상세 오류") genericUploadFailMsg = "서버 상세 오류" :=
  (upload_rejected_message sampleOpenState goodFile "blob:x"
      (some "서버 상세 오류") "net").2.2.2.1 "서버 상세 오류" rfl (by decide)

/-- C6 (counterexample): selecting a new valid file while a task's channel
is open leaves the old socket open and the old `currentTaskId` live —
`handleFileSelect` neither closes the channel nor invalidates the task. -/
theorem new_selection_channel_counterexample :
    (handleFileSelect sampleOpenState (some goodFile)).1.websocket
        = WebSocketState.sockOpen
  ∧ (handleFileSelect sampleOpenState (some goodFile)).1.currentTaskId = some "abc123"
  ∧ WebSocketState.sockOpen ≠ WebSocketState.noSocket :=
  ⟨by decide, by decide, by decide⟩

/-- C6 (amended): the session's single `currentFile` and `currentTaskId`
fields are overwritten, never duplicated — a new valid selection stores the
new file and a later successful upload response overwrites the task id —
but selecting a new file leaves both the previous `currentTaskId` and an
open Progress Channel untouched; only `resetUpload` or a `complete` event
closes the channel. -/
theorem new_selection_keeps_channel (s : EditorState) (f : JsFile)
    (h : validateFile (some f) = none) (tid fn url : String) (md : VideoMetadata)
    (g : JsFile) :
    (handleFileSelect s (some f)).1.currentFile = some f
  ∧ (handleFileSelect s (some f)).1.currentTaskId = s.currentTaskId
  ∧ (handleFileSelect s (some f)).1.websocket = s.websocket
  ∧ (applyUploadResponse s g url (UploadOutcome.success tid fn md)).1.currentTaskId
      = some tid := by
  rw [handleFileSelect.eq_def, h]
  exact ⟨rfl, rfl, rfl, rfl⟩

/-- C6 (witness): the amended theorem at the mid-analysis sample state and
a valid file. -/
theorem new_selection_keeps_channel_witness :
    (handleFileSelect sampleOpenState (some goodFile)).1.websocket
      = WebSocketState.sockOpen :=
  ((new_selection_keeps_channel sampleOpenState goodFile (by decide)
    "t1" "movie.mp4" "blob:u" demoMetadata goodFile).2.2.1).trans rfl

/-- C7: `resetUpload` always returns the session to the idle shape —
`currentFile`, `currentTaskId` cleared, socket nulled, object URL released
— revoking exactly the held URL when one is held and nothing otherwise;
and it is idempotent: a second call returns the same state and performs no
effect at all, in particular it never revokes the same URL twice. -/
theorem resetUpload_idempotent (s : EditorState) :
    (resetUpload s).1.currentFile = none
  ∧ (resetUpload s).1.currentTaskId = none
  ∧ (resetUpload s).1.websocket = WebSocketState.noSocket
  ∧ (resetUpload s).1.videoSrc = none
  ∧ revokedUrls (resetUpload s).2
      = (match s.videoSrc with | some url => [url] | none => [])
  ∧ resetUpload (resetUpload s).1 = ((resetUpload s).1, []) := by
  obtain ⟨cf, cti, ws, vs, fiv, pp, pt, pv, em⟩ := s
  cases vs <;> cases ws <;>
    simp [resetUpload, hideProgress, hideError, revokedUrls]

/-- C9 (counterexample): an upload response arriving after `resetUpload`
has cleared the session is not discarded: it installs its `task_id` and
object URL into the reset session. -/
theorem stale_response_counterexample :
    ((resetUpload (handleFileSelect initialState (some goodFile)).1).1).currentTaskId
        = none
  ∧ ((applyUploadResponse
        ((resetUpload (handleFileSelect initialState (some goodFile)).1).1)
        goodFile "blob:stale"
        (UploadOutcome.success "abc123" "movie.mp4" demoMetadata)).1).currentTaskId
        = some "abc123"
  ∧ some "abc123" ≠ (none : Option String) :=
  ⟨by decide, by decide, by decide⟩

/-- C9 (amended): the upload continuation performs no correlation of the
response with a task id captured at request time — whatever session state
holds when the response arrives, a success response installs its
`task_id` and the fresh object URL unconditionally. -/
theorem upload_response_applied_unconditionally (s : EditorState) (g : JsFile)
    (url tid fn : String) (md : VideoMetadata) :
    (applyUploadResponse s g url (UploadOutcome.success tid fn md)).1.currentTaskId
      = some tid
  ∧ (applyUploadResponse s g url (UploadOutcome.success tid fn md)).1.videoSrc
      = some url := ⟨rfl, rfl⟩

/-- C10: when validation fails, `handleFileSelect` only shows the error
message: `currentFile`, `currentTaskId` and the websocket keep their
values and no effect — in particular no upload request — is produced. -/
theorem failed_validation_atomic (s : EditorState) (file : Option JsFile)
    (e : ValidationError) (h : validateFile file = some e) :
    handleFileSelect s file = (showError s (validationErrorMessage e), [])
  ∧ (handleFileSelect s file).1.currentFile = s.currentFile
  ∧ (handleFileSelect s file).1.currentTaskId = s.currentTaskId
  ∧ (handleFileSelect s file).1.websocket = s.websocket
  ∧ (handleFileSelect s file).2 = [] := by
  rw [handleFileSelect.eq_def, h]
  exact ⟨rfl, rfl, rfl, rfl, rfl⟩

/-- C8: the display formatters on the spec's worked example — a duration of
125 seconds prints as `2:05` (minutes and zero-padded seconds, no hour
field) and a size of 10485760 bytes prints as `10 MB` (scaled by `1024^2`
with the matching unit). -/
theorem format_display_values :
    formatDuration 125 = "2:05" ∧ formatFileSize 10485760 = "10 MB" := by
  constructor
  · have hm : jsMod (125 : ℚ) 3600 = 125 := by
      rw [jsMod, jsTrunc, if_neg (by norm_num : ¬ ((125 : ℚ) / 3600 < 0)),
        (by rw [Int.floor_eq_iff]; norm_num : ⌊(125 : ℚ) / 3600⌋ = 0)]
      norm_num
    have hm2 : jsMod (125 : ℚ) 60 = 5 := by
      rw [jsMod, jsTrunc, if_neg (by norm_num : ¬ ((125 : ℚ) / 60 < 0)),
        (by rw [Int.floor_eq_iff]; norm_num : ⌊(125 : ℚ) / 60⌋ = 2)]
      norm_num
    rw [formatDuration, hm, hm2,
      (by rw [Int.floor_eq_iff]; norm_num : ⌊(125 : ℚ) / 3600⌋ = 0),
      (by rw [Int.floor_eq_iff]; norm_num : ⌊(125 : ℚ) / 60⌋ = 2),
      (by rw [Int.floor_eq_iff]; norm_num : ⌊(5 : ℚ)⌋ = 5)]
    decide
  · have hi : Nat.log 1024 10485760 = 2 :=
      Nat.log_eq_of_pow_le_of_lt_pow (by norm_num) (by norm_num)
    simp only [formatFileSize, renderFixed2]
    rw [if_neg (by norm_num : ¬ (10485760 = 0)), hi,
      (by rw [Int.floor_eq_iff]; push_cast; norm_num :
        ⌊((10485760 : ℕ) : ℚ) / (1024 : ℚ) ^ (2 : ℕ) * 100 + 1 / 2⌋ = 1000)]
    decide

/-- C10 (witness): the atomicity theorem at the mid-analysis sample state
and an oversized file. -/
theorem failed_validation_atomic_witness :
    handleFileSelect sampleOpenState (some bigFile)
      = (showError sampleOpenState (validationErrorMessage ValidationError.tooLarge), []) :=
  (failed_validation_atomic sampleOpenState (some bigFile)
    ValidationError.tooLarge (by decide)).1

end Fogify
